import Mathlib

/-!
Verification of the core simulation logic of the plane-game repository
(src/game.js and the near-duplicate build in src/unnamed/part_000, with
js/utils.js).  The JavaScript computes with IEEE doubles; the shallow
embedding uses exact rational arithmetic, and the transcendental functions
(Math.sin, Math.cos, Math.random, the quaternion application used to build
the forward vector) are passed in as explicit parameters, since only their
results, never their definitions, matter to the claims proved here.
Square-root comparisons (distance tests) are embedded as the equivalent
comparisons of squared magnitudes, and wherever a vector length is needed
(THREE.Vector3.normalize / clampLength) the length is an explicit argument
constrained by a hypothesis that its square is the squared norm.
-/

namespace PlaneGame

/-- Embedding of THREE.Vector3 restricted to the operations the simulation
core uses, with rational components. -/
structure Vec3 where
  x : ℚ
  y : ℚ
  z : ℚ
  deriving DecidableEq

/-- Componentwise addition (THREE.Vector3.add). -/
def Vec3.add (a b : Vec3) : Vec3 := ⟨a.x + b.x, a.y + b.y, a.z + b.z⟩

/-- Componentwise subtraction (THREE.Vector3.sub / subVectors). -/
def Vec3.sub (a b : Vec3) : Vec3 := ⟨a.x - b.x, a.y - b.y, a.z - b.z⟩

/-- Scalar multiple (THREE.Vector3.multiplyScalar). -/
def Vec3.smul (s : ℚ) (a : Vec3) : Vec3 := ⟨s * a.x, s * a.y, s * a.z⟩

/-- Dot product (THREE.Vector3.dot). -/
def Vec3.dot (a b : Vec3) : ℚ := a.x * b.x + a.y * b.y + a.z * b.z

/-- Squared euclidean norm (THREE.Vector3.lengthSq); the true length is
its square root, which the embedding carries as explicit arguments. -/
def Vec3.normSq (a : Vec3) : ℚ := a.x ^ 2 + a.y ^ 2 + a.z ^ 2

/-- Linear interpolation toward a target vector
(THREE.Vector3.lerp: this.x += (v.x - this.x) * alpha, componentwise). -/
def Vec3.lerp (a b : Vec3) (t : ℚ) : Vec3 :=
  ⟨a.x + (b.x - a.x) * t, a.y + (b.y - a.y) * t, a.z + (b.z - a.z) * t⟩

/-- THREE.Vector3.divideScalar: multiplyScalar(1 / s). -/
def Vec3.divideScalar (a : Vec3) (s : ℚ) : Vec3 := Vec3.smul (1 / s) a

/-- THREE.Vector3.normalize is divideScalar(length() || 1); the length is
passed explicitly (theorems constrain it by len ^ 2 = normSq). -/
def Vec3.normalizeWith (a : Vec3) (len : ℚ) : Vec3 :=
  a.divideScalar (if len = 0 then 1 else len)

/-- THREE.Vector3.clampLength(lo, hi):
divideScalar(length() || 1).multiplyScalar(max(lo, min(hi, length()))),
with the current length passed explicitly. -/
def Vec3.clampLengthWith (a : Vec3) (len lo hi : ℚ) : Vec3 :=
  Vec3.smul (max lo (min hi len)) (a.divideScalar (if len = 0 then 1 else len))

/-- THREE.MathUtils.clamp(value, lo, hi) = Math.max(lo, Math.min(hi, value)). -/
def clampq (v lo hi : ℚ) : ℚ := max lo (min hi v)

theorem le_clampq (v lo hi : ℚ) : lo ≤ clampq v lo hi := le_max_left lo (min hi v)

theorem clampq_le (v lo hi : ℚ) (h : lo ≤ hi) : clampq v lo hi ≤ hi :=
  max_le h (min_le_left hi v)

theorem clampq_eq_self (v lo hi : ℚ) (h1 : lo ≤ v) (h2 : v ≤ hi) : clampq v lo hi = v := by
  unfold clampq
  rw [min_eq_right h2, max_eq_right h1]

/-! ## Terrain height field

Both builds share the noise formula (game.js noise2D / js/utils.js noise2D);
the trigonometric functions are parameters of the embedding. -/

/-- TERRAIN_SIZE from game.js / js/config.js. -/
def terrainSize : ℚ := 4000

/-- noise2D(x, y) from game.js lines 142-147 (identical in js/utils.js),
with Math.sin and Math.cos as parameters sinq and cosq. -/
def noise2D (sinq cosq : ℚ → ℚ) (x y : ℚ) : ℚ :=
  sinq (x * 0.01) * cosq (y * 0.01) * 10 +
  sinq (x * 0.02 + 1) * cosq (y * 0.02) * 5 +
  sinq ((x + y) * 0.005) * 8

/-- The in-bounds base height used by game.js getTerrainHeight (lines 477-480)
and by terrain creation: noise2D(x,z) + noise2D(2x,2z)*0.5 + |sin(.005x)cos(.005z)|*15. -/
def baseTerrainHeight (sinq cosq : ℚ → ℚ) (x z : ℚ) : ℚ :=
  noise2D sinq cosq x z +
  noise2D sinq cosq (x * 2) (z * 2) * 0.5 +
  |sinq (x * 0.005) * cosq (z * 0.005)| * 15

/-- getTerrainHeight from src/game.js lines 466-481: shifts world coordinates
by TERRAIN_SIZE, returns 0 when the shifted coordinates fall outside
[0, 2*TERRAIN_SIZE], and otherwise 3 times the base noise height. -/
def getTerrainHeight (sinq cosq : ℚ → ℚ) (worldX worldZ : ℚ) : ℚ :=
  let x := worldX + terrainSize
  let z := worldZ + terrainSize
  if x < 0 ∨ x > terrainSize * 2 ∨ z < 0 ∨ z > terrainSize * 2 then 0
  else baseTerrainHeight sinq cosq x z * 3

/-- getTerrainHeight from src/unnamed/part_000 lines 787-794: the same
out-of-bounds test but returning the sentinel -10, delegating in-bounds to
terrainHeightAt from js/utils.js (edge-falloff height, passed here as the
parameter heightAt since it uses sqrt and trig). -/
def getTerrainHeightFalloff (heightAt : ℚ → ℚ → ℚ) (worldX worldZ : ℚ) : ℚ :=
  let x := worldX + terrainSize
  let z := worldZ + terrainSize
  if x < 0 ∨ x > terrainSize * 2 ∨ z < 0 ∨ z > terrainSize * 2 then -10
  else heightAt x z

/-! ## Flight model -/

/-- The aircraft scalar state (planeState in game.js lines 35-47), with the
three Euler components of planeState.rotation flattened to rotX, rotY, rotZ. -/
structure PlaneState where
  position : Vec3
  velocity : Vec3
  rotX : ℚ
  rotY : ℚ
  rotZ : ℚ
  speed : ℚ
  pitch : ℚ
  roll : ℚ
  turnRoll : ℚ
  yaw : ℚ
  verticalVelocity : ℚ
  deriving DecidableEq

/-- planeState.maxSpeed. -/
def planeMaxSpeed : ℚ := 120

/-- planeState.minSpeed. -/
def planeMinSpeed : ℚ := 20

/-- The held control keys sampled by updatePlane (the keys object). -/
structure Keys where
  keyW : Bool
  keyS : Bool
  keyA : Bool
  keyD : Bool
  numpad4 : Bool
  numpad6 : Bool
  numpad8 : Bool
  numpad5 : Bool
  numpad2 : Bool
  arrowUp : Bool
  arrowDown : Bool
  arrowLeft : Bool
  arrowRight : Bool
  deriving DecidableEq

/-- Throttle handling, game.js lines 1117-1118: W moves speed toward
maxSpeed, S toward minSpeed, each at 40 units per second, clamped. -/
def throttleStep (k : Keys) (speed delta : ℚ) : ℚ :=
  let s1 := if k.keyW then min planeMaxSpeed (speed + 40 * delta) else speed
  if k.keyS then max planeMinSpeed (s1 - 40 * delta) else s1

/-- Roll inputs, game.js lines 1121-1126 (turnRate = 1.0; Numpad roll is
1.5 times faster). -/
def rollInputStep (k : Keys) (roll delta : ℚ) : ℚ :=
  let r1 := if k.keyA then roll + 1 * delta else roll
  let r2 := if k.keyD then r1 - 1 * delta else r1
  let r3 := if k.numpad4 then r2 - 1 * 1.5 * delta else r2
  if k.numpad6 then r3 + 1 * 1.5 * delta else r3

/-- turnRoll accumulates only from A and D, game.js lines 1121-1122. -/
def turnRollInputStep (k : Keys) (turnRoll delta : ℚ) : ℚ :=
  let t1 := if k.keyA then turnRoll + 1 * delta else turnRoll
  if k.keyD then t1 - 1 * delta else t1

/-- Pitch inputs, game.js lines 1129-1137 (pitchRate = 0.9). -/
def pitchInputStep (k : Keys) (pitch delta : ℚ) : ℚ :=
  let p1 := if k.numpad8 then pitch - 0.9 * delta else pitch
  let p2 := if k.numpad5 then p1 + 0.9 * delta else p1
  let p3 := if k.numpad2 then p2 - 0.9 * delta else p2
  let p4 := if k.arrowUp then p3 + 0.9 * delta else p3
  if k.arrowDown then p4 - 0.9 * delta else p4

/-- Yaw inputs, game.js lines 1138-1139. -/
def yawInputStep (k : Keys) (yaw delta : ℚ) : ℚ :=
  let y1 := if k.arrowLeft then yaw + 1 * delta else yaw
  if k.arrowRight then y1 - 1 * delta else y1

/-- The normal-control branch of updatePlane (game.js lines 1112-1227,
aircraft-state effects only; the forward vector, computed in the source by
applying the YZX-Euler quaternion to (0,0,-1), is a parameter).  Field
order follows the source: throttle, roll and pitch inputs, pitch clamp,
roll/turnRoll decay by 0.995 per tick (not delta-scaled), heading
integration, yaw decay by 0.95, velocity = forward * speed, stall test
(speed < 38 and pitch > 0.25) choosing the lift acceleration, vertical
velocity clamped to [-55, 50], and position integration. -/
def updatePlaneFlying (k : Keys) (st : PlaneState) (forward : Vec3) (delta : ℚ) : PlaneState :=
  let speed := throttleStep k st.speed delta
  let pitchC := clampq (pitchInputStep k st.pitch delta) (-1.2) 1.2
  let roll := rollInputStep k st.roll delta * 0.995
  let turnRoll := turnRollInputStep k st.turnRoll delta * 0.995
  let yawI := yawInputStep k st.yaw delta
  let rotY := st.rotY + turnRoll * 0.6 * delta + yawI * 0.4 * delta
  let velocity := Vec3.smul speed forward
  let stalling := decide (speed < 38 ∧ 0.25 < pitchC)
  let pitchF := if stalling then max (-0.5) (pitchC - 1.5 * delta) else pitchC
  let liftAccel := if stalling then (-16 : ℚ) else speed / 75 * 22 + pitchC * 25
  let vv := clampq (st.verticalVelocity + (-22 + liftAccel) * delta) (-55) 50
  let pos1 := st.position.add (Vec3.smul delta velocity)
  { position := ⟨pos1.x, pos1.y + vv * delta, pos1.z⟩,
    velocity := velocity,
    rotX := pitchC, rotY := rotY, rotZ := -roll,
    speed := speed, pitch := pitchF, roll := roll, turnRoll := turnRoll,
    yaw := yawI * 0.95, verticalVelocity := vv }

/-- The shot-down branch of updatePlane (game.js lines 1081-1109): speed
decays by 0.992 per tick floored at 15, gravity only (no lift) with
vertical velocity floored at -50, pitch drifts up by 0.12 rad/s capped at
0.6, roll gets a random perturbation (randVal stands for Math.random()),
and position integrates along the current forward vector. -/
def updatePlaneShotDown (st : PlaneState) (forward : Vec3) (delta randVal : ℚ) : PlaneState :=
  let speed := max (st.speed * 0.992) 15
  let vv := max (st.verticalVelocity + (-22) * delta) (-50)
  let pitch := min (st.pitch + 0.12 * delta) 0.6
  let roll := st.roll + (randVal - 0.5) * 0.2 * delta
  let pos1 := st.position.add (Vec3.smul (speed * delta) forward)
  { st with
    position := ⟨pos1.x, pos1.y + vv * delta, pos1.z⟩,
    speed := speed, verticalVelocity := vv, pitch := pitch, roll := roll,
    rotX := pitch, rotZ := -roll }

/-! ## Game state flags -/

/-- The global mode flags of game.js (gameOver, crashed, hitByMissile,
shotDownFalling, lines 28-31). -/
structure GameFlags where
  gameOver : Bool
  crashed : Bool
  hitByMissile : Bool
  shotDownFalling : Bool
  deriving DecidableEq

/-- The spec's three-state game mode, derived from the flags: crashed means
Crashed, otherwise shotDownFalling means ShotDown, otherwise Flying. -/
inductive GameMode where
  | Flying
  | ShotDown
  | Crashed
  deriving DecidableEq

/-- Mode read-out of the flag set. -/
def GameFlags.mode (f : GameFlags) : GameMode :=
  if f.crashed then GameMode.Crashed
  else if f.shotDownFalling then GameMode.ShotDown
  else GameMode.Flying

/-- Flag effect of an enemy missile hit (updateMissiles, game.js lines
1588-1596): hitByMissile, shotDownFalling and gameOver all become true;
crashed is untouched. -/
def missileHitFlags (f : GameFlags) : GameFlags :=
  { f with hitByMissile := true, shotDownFalling := true, gameOver := true }

/-- Flag effect of triggerCrash (game.js lines 916-920): a no-op when
already crashed, otherwise crashed and gameOver become true and
shotDownFalling is cleared. -/
def triggerCrashFlags (f : GameFlags) : GameFlags :=
  if f.crashed then f
  else { f with crashed := true, shotDownFalling := false, gameOver := true }

/-- Tree obstacle record (game.js createTrees, line 342-346). -/
structure Tree where
  position : Vec3
  radius : ℚ
  height : ℚ
  deriving DecidableEq

/-- Tree collision test from checkCollision (game.js lines 982-990):
planar distance below the tree radius while below the tree top.  The
source compares sqrt(dx^2 + dz^2) < radius; the embedding compares the
squares (equivalent for nonnegative radius). -/
def treeHit (p : Vec3) (t : Tree) : Bool :=
  decide ((p.x - t.position.x) ^ 2 + (p.z - t.position.z) ^ 2 < t.radius ^ 2 ∧
    p.y < t.position.y + t.height)

/-- checkCollision (game.js lines 971-991), flag effects: the aircraft
bottom (y - 0.8) at or below terrain height + 0.3 triggers the crash;
otherwise any tree hit triggers it.  terrainH is getTerrainHeight at the
aircraft position. -/
def checkCollision (f : GameFlags) (planePos : Vec3) (terrainH : ℚ) (trees : List Tree) :
    GameFlags :=
  if planePos.y - 0.8 ≤ terrainH + 0.3 then triggerCrashFlags f
  else if trees.any (treeHit planePos) then triggerCrashFlags f
  else f

/-- updatePlane dispatch (game.js lines 1076-1081): no update when crashed
(gameOver and not shotDownFalling), the falling branch when shot down,
otherwise normal control. -/
def updatePlane (f : GameFlags) (k : Keys) (st : PlaneState) (forward : Vec3)
    (delta randVal : ℚ) : PlaneState :=
  if f.gameOver && !f.shotDownFalling then st
  else if f.shotDownFalling then updatePlaneShotDown st forward delta randVal
  else updatePlaneFlying k st forward delta

/-! ## Projectiles and cannons -/

/-- A cannon emplacement (game.js createCannons, lines 431-437). -/
structure Cannon where
  position : Vec3
  lastFireTime : ℚ
  active : Bool
  radius : ℚ
  deriving DecidableEq

/-- An enemy missile's userData record (game.js fireMissile, lines 839-844). -/
structure Missile where
  position : Vec3
  velocity : Vec3
  active : Bool
  spawnTime : ℚ
  deriving DecidableEq

/-- A player missile's userData record (game.js firePlayerMissile, lines
774-781); the target is the cannon locked at fire time, never re-acquired. -/
structure PlayerMissile where
  position : Vec3
  velocity : Vec3
  active : Bool
  spawnTime : ℚ
  target : Option Cannon
  homingStrength : ℚ
  deriving DecidableEq

/-- Enemy missile spawn (fireMissile, game.js lines 834-849): spawn 0.5
above the cannon, initial velocity 65 toward the player (dirLen is the
length of the spawn-to-player vector, used by normalize). -/
def fireMissileSpawn (fromPos planePos : Vec3) (dirLen now : ℚ) : Missile :=
  let spawnPos := fromPos.add ⟨0, 0.5, 0⟩
  let toPlayer := (planePos.sub spawnPos).normalizeWith dirLen
  { position := spawnPos, velocity := Vec3.smul 65 toPlayer, active := true, spawnTime := now }

/-- The homing correction of updateMissiles (game.js lines 1576-1578):
lerp the velocity toward 105 times the unit direction to the player with
factor 1.5 * delta, then clampLength(65, 115).  dirLen is the length of
the player-to-missile offset, velLen the length of the lerped velocity. -/
def enemyHomingVelocity (planePos : Vec3) (m : Missile) (dirLen velLen delta : ℚ) : Vec3 :=
  let toPlayer := (planePos.sub m.position).normalizeWith dirLen
  (m.velocity.lerp (Vec3.smul 105 toPlayer) (1.5 * delta)).clampLengthWith velLen 65 115

/-- The post-integration position of an enemy missile for one tick. -/
def enemyMissileNewPos (planePos : Vec3) (m : Missile) (dirLen velLen delta : ℚ) : Vec3 :=
  m.position.add (Vec3.smul delta (enemyHomingVelocity planePos m dirLen velLen delta))

/-- The proximity test of updateMissiles (game.js line 1587-1588):
distance of the updated missile position to the aircraft below 4, and the
plane object present.  The source compares distanceTo < 4; the embedding
compares squares. -/
def enemyProximityHit (planePos : Vec3) (m : Missile) (dirLen velLen delta : ℚ)
    (planePresent : Bool) : Bool :=
  decide (Vec3.normSq ((enemyMissileNewPos planePos m dirLen velLen delta).sub planePos) <
    4 ^ 2) && planePresent

/-- One enemy missile's update in updateMissiles (game.js lines 1575-1602),
for an active missile: homing correction, position integration, proximity
hit (which sets hitByMissile / shotDownFalling / gameOver and deactivates
the missile; the source also stamps shotDownTime and drives UI and fire
visuals), then lifetime expiry (now - spawnTime > 8000 deactivates).
There is no terrain check in this loop. -/
def enemyMissileStep (f : GameFlags) (planePos : Vec3) (planePresent : Bool)
    (m : Missile) (dirLen velLen delta now : ℚ) : Missile × GameFlags :=
  let vel1 := enemyHomingVelocity planePos m dirLen velLen delta
  let pos1 := m.position.add (Vec3.smul delta vel1)
  let hit := decide (Vec3.normSq (pos1.sub planePos) < 4 ^ 2) && planePresent
  let f1 := if hit then missileHitFlags f else f
  let active1 := if hit then false else m.active
  let active2 := if decide (now - m.spawnTime > 8000) then false else active1
  ({ m with position := pos1, velocity := vel1, active := active2 }, f1)

/-- The whole updateMissiles loop over the active-missile array, threading
the flag state; each missile carries its two length oracles (dirLen,
velLen).  Inactive missiles are removed (spliced) without processing, as
in game.js lines 1570-1574. -/
def updateMissilesList (f : GameFlags) (planePos : Vec3) (planePresent : Bool)
    (delta now : ℚ) : List (Missile × ℚ × ℚ) → List Missile × GameFlags
  | [] => ([], f)
  | (m, dirLen, velLen) :: rest =>
    if m.active then
      let r := enemyMissileStep f planePos planePresent m dirLen velLen delta now
      let s := updateMissilesList r.2 planePos planePresent delta now rest
      (r.1 :: s.1, s.2)
    else
      updateMissilesList f planePos planePresent delta now rest

/-- The homing correction of updatePlayerMissiles (game.js lines
1496-1501), applied only when the captured target is still active: lerp
toward 200 times the unit direction to the target with factor
homingStrength * delta, then clampLength(120, 220). -/
def playerHomingVelocity (m : PlayerMissile) (t : Cannon) (dirLen velLen delta : ℚ) : Vec3 :=
  let toTarget := (t.position.sub m.position).normalizeWith dirLen
  (m.velocity.lerp (Vec3.smul 200 toTarget) (m.homingStrength * delta)).clampLengthWith
    velLen 120 220

/-- The velocity a player missile carries after the (conditional) homing
correction: uncorrected when there is no live target. -/
def playerMissileVel (m : PlayerMissile) (dirLen velLen delta : ℚ) : Vec3 :=
  match m.target with
  | some t => if t.active then playerHomingVelocity m t dirLen velLen delta else m.velocity
  | none => m.velocity

/-- The post-integration position of a player missile for one tick. -/
def playerMissileNewPos (m : PlayerMissile) (dirLen velLen delta : ℚ) : Vec3 :=
  m.position.add (Vec3.smul delta (playerMissileVel m dirLen velLen delta))

/-- The cannon-proximity scan of updatePlayerMissiles (game.js lines
1519-1533): the first active cannon within radius + 1 of the missile is
removed from the array (deactivated and spliced) and the scan stops;
returns the remaining cannons and whether a cannon was struck.  The source
iterates the array downward from the last index; the scan is modelled in
list order, which only affects which cannon is struck when several
overlap, not whether one is. -/
def cannonScan (mpos : Vec3) : List Cannon → List Cannon × Bool
  | [] => ([], false)
  | c :: rest =>
    if c.active && decide (Vec3.normSq (mpos.sub c.position) < (c.radius + 1) ^ 2) then
      (rest, true)
    else
      let s := cannonScan mpos rest
      (c :: s.1, s.2)

/-- One player missile's update in updatePlayerMissiles (game.js lines
1496-1538), for an active missile: conditional homing, position
integration, then the collision checks in source order — terrain impact
(new y at or below getTerrainHeight + 0.5 explodes and deactivates,
skipping the remaining checks), cannon proximity (strikes and removes the
cannon, deactivates the missile), and lifetime expiry
(now - spawnTime > 5000). -/
def playerMissileStep (m : PlayerMissile) (cannons : List Cannon)
    (terrain : ℚ → ℚ → ℚ) (dirLen velLen delta now : ℚ) :
    PlayerMissile × List Cannon :=
  let vel1 := playerMissileVel m dirLen velLen delta
  let pos1 := m.position.add (Vec3.smul delta vel1)
  if pos1.y ≤ terrain pos1.x pos1.z + 0.5 then
    ({ m with position := pos1, velocity := vel1, active := false }, cannons)
  else
    let s := cannonScan pos1 cannons
    let active1 := if s.2 then false else m.active
    let active2 := if decide (now - m.spawnTime > 5000) then false else active1
    ({ m with position := pos1, velocity := vel1, active := active2 }, s.1)

/-! ## Player firing -/

/-- MISSILE_RELOAD_TIME (game.js line 27). -/
def missileReloadTime : ℚ := 3

/-- Which wing hardpoint fired. -/
inductive Wing where
  | left
  | right
  deriving DecidableEq

/-- The firing-relevant state: the two per-wing reload timers
(wingMissileReload), the alternation index nextMissileWing (0 = left
next), and the live player-missile list. -/
structure FireState where
  reloadLeft : ℚ
  reloadRight : ℚ
  nextMissileWing : ℕ
  missiles : List PlayerMissile
  deriving DecidableEq

/-- firePlayerMissile (game.js lines 737-788).  planePresent models the
plane/wing-mesh null guard; applyQ is the application of the aircraft's
current quaternion (a rotation, so the source's normalize() of the rotated
unit forward vector is the identity and is omitted); locked is the
lock-on target captured into the missile.  A call with both hardpoints on
cooldown returns the state unchanged and fires nothing; otherwise the
preferred wing (nextMissileWing, overridden if not ready) fires: its
reload timer is set to 3 seconds, the alternation index flips, and a
missile spawns at the wing hardpoint with velocity 180 * forward. -/
def firePlayerMissile (planePresent : Bool) (fs : FireState) (planePos : Vec3)
    (applyQ : Vec3 → Vec3) (locked : Option Cannon) (now : ℚ) :
    FireState × Option Wing :=
  if !planePresent then (fs, none)
  else
    let leftReady := decide (fs.reloadLeft ≤ 0)
    let rightReady := decide (fs.reloadRight ≤ 0)
    if !leftReady && !rightReady then (fs, none)
    else
      let fireFromLeft0 := fs.nextMissileWing == 0
      let fireFromLeft :=
        if fireFromLeft0 && !leftReady then false
        else if !fireFromLeft0 && !rightReady then true
        else fireFromLeft0
      let next1 := 1 - fs.nextMissileWing
      let wingSpan : ℚ := 14
      let wingOffsetLocal : Vec3 :=
        ⟨if fireFromLeft then -wingSpan / 2 + 0.5 else wingSpan / 2 - 0.5, -0.55, -0.3⟩
      let spawnPos := planePos.add (applyQ wingOffsetLocal)
      let forward := applyQ ⟨0, 0, -1⟩
      let fs1 :=
        if fireFromLeft then { fs with reloadLeft := missileReloadTime }
        else { fs with reloadRight := missileReloadTime }
      let missile : PlayerMissile :=
        { position := spawnPos, velocity := Vec3.smul 180 forward, active := true,
          spawnTime := now, target := locked, homingStrength := 2.2 }
      ({ fs1 with nextMissileWing := next1, missiles := fs1.missiles ++ [missile] },
        some (if fireFromLeft then Wing.left else Wing.right))

/-! ## Threat controller -/

/-- One cannon's decision in updateCannons (game.js lines 1549-1558): an
active cannon whose planar distance to the aircraft is below 450 and whose
own fire timer has at least 2.5 seconds elapsed fires (spawning an enemy
missile) and stamps its timer.  The source compares
sqrt(dx^2 + dz^2) < 450; the embedding compares squares. -/
def cannonTick (planePos : Vec3) (now : ℚ) (c : Cannon) : Cannon × Bool :=
  if c.active &&
      decide ((planePos.x - c.position.x) ^ 2 + (planePos.z - c.position.z) ^ 2 < 450 ^ 2 ∧
        now - c.lastFireTime > 2.5) then
    ({ c with lastFireTime := now }, true)
  else (c, false)

/-- updateCannons (game.js lines 1543-1559): entirely inert (no state
change, no fire) when gameOver is set or the plane object is absent;
otherwise every eligible cannon fires this tick.  Returns the updated
cannons and the number of missiles fired. -/
def updateCannons (f : GameFlags) (planePresent : Bool) (planePos : Vec3) (now : ℚ)
    (cs : List Cannon) : List Cannon × ℕ :=
  if f.gameOver || !planePresent then (cs, 0)
  else
    cs.foldr
      (fun c acc =>
        let r := cannonTick planePos now c
        (r.1 :: acc.1, acc.2 + (if r.2 then 1 else 0)))
      ([], 0)

/-! ## Cannon placement and restart -/

/-- The data of the rejection sampler in createCannons (game.js lines
383-441) that depends on transcendental evaluation: accept c is the
outcome of the slope/height test (slope <= 2 and terrain height >= -5)
for the candidate with seed index c = placed + attempts, and posOf c the
cannon position (x, terrainHeight + 2.5, z) derived from the sine-based
rand at that index. -/
structure CannonPlacement where
  accept : ℕ → Bool
  posOf : ℕ → Vec3

/-- The placement loop of createCannons: while fewer than 48 placed and
fewer than 48 * 8 = 384 attempts, draw the next candidate and place it if
accepted.  The loop body runs at most 384 times (attempts strictly
increases), so fuel = 384 realizes the while loop exactly. -/
def placeCannonsAux (P : CannonPlacement) : ℕ → ℕ → ℕ → List Cannon
  | 0, _, _ => []
  | fuel + 1, placed, attempts =>
    if placed < 48 && attempts < 384 then
      let a1 := attempts + 1
      let c := placed + a1
      if P.accept c then
        { position := P.posOf c, lastFireTime := 0, active := true, radius := 5 } ::
          placeCannonsAux P fuel (placed + 1) a1
      else
        placeCannonsAux P fuel placed a1
    else []

/-- createCannons (game.js lines 383-441), cannon-list effect. -/
def createCannons (P : CannonPlacement) : List Cannon := placeCannonsAux P 384 0 0

/-- The aircraft state restart installs (game.js lines 1734-1742),
identical to the initial planeState (lines 35-47). -/
def initialPlaneState : PlaneState :=
  { position := ⟨-(terrainSize / 2), 100, -(terrainSize / 2)⟩,
    velocity := ⟨0, 0, -50⟩,
    rotX := 0, rotY := 0, rotZ := 0,
    speed := 75, pitch := 0, roll := 0, turnRoll := 0, yaw := 0,
    verticalVelocity := 0 }

/-- The whole mutable world the claims touch: mode flags, aircraft state,
the four transient entity collections, the lock-on reference, the wing
reload timers, the camera orbit offsets, and the wing alternation index. -/
structure World where
  flags : GameFlags
  planeState : PlaneState
  missiles : List Missile
  playerMissiles : List PlayerMissile
  cannons : List Cannon
  explosionParticles : List Vec3
  groundFireParticles : List Vec3
  lockedCannon : Option Cannon
  reloadLeft : ℚ
  reloadRight : ℚ
  camThetaOffset : ℚ
  camPhiOffset : ℚ
  nextMissileWing : ℕ

/-- The flag state restart installs (game.js lines 1713-1716): all four
flags cleared. -/
def restartFlags : GameFlags :=
  { gameOver := false, crashed := false, hitByMissile := false, shotDownFalling := false }

/-- restart (game.js lines 1712-1758): clears all four flags, empties the
player-missile, enemy-missile, explosion and ground-fire collections,
drops the lock-on reference, rebuilds the cannons via createCannons,
resets the aircraft state and both wing reload timers and the camera
offsets.  nextMissileWing is not reset by the source.  (DOM/scene effects
are outside the model.) -/
def restart (P : CannonPlacement) (w : World) : World :=
  { flags := restartFlags,
    planeState := initialPlaneState,
    missiles := [], playerMissiles := [],
    cannons := createCannons P,
    explosionParticles := [], groundFireParticles := [],
    lockedCannon := none,
    reloadLeft := 0, reloadRight := 0,
    camThetaOffset := 0, camPhiOffset := 0,
    nextMissileWing := w.nextMissileWing }

/-! ## Flight model lemmas -/

theorem throttleStep_bounds (k : Keys) (s d : ℚ) (hd : 0 ≤ d) (h1 : 20 ≤ s) (h2 : s ≤ 120) :
    20 ≤ throttleStep k s d ∧ throttleStep k s d ≤ 120 := by
  unfold throttleStep planeMaxSpeed planeMinSpeed
  split_ifs with hW hS hS <;> dsimp only
  · refine ⟨le_max_left _ _, max_le (by norm_num) ?_⟩
    have := min_le_left (120 : ℚ) (s + 40 * d)
    linarith
  · exact ⟨le_min (by norm_num) (by linarith), min_le_left _ _⟩
  · exact ⟨le_max_left _ _, max_le (by norm_num) (by linarith)⟩
  · exact ⟨h1, h2⟩

theorem throttleStep_bounds_fifteen (k : Keys) (s d : ℚ) (hd : 0 ≤ d)
    (h1 : 15 ≤ s) (h2 : s ≤ 120) :
    15 ≤ throttleStep k s d ∧ throttleStep k s d ≤ 120 := by
  unfold throttleStep planeMaxSpeed planeMinSpeed
  split_ifs with hW hS hS <;> dsimp only
  · refine ⟨le_trans (by norm_num) (le_max_left (20 : ℚ) _), max_le (by norm_num) ?_⟩
    have := min_le_left (120 : ℚ) (s + 40 * d)
    linarith
  · exact ⟨le_min (by norm_num) (by linarith), min_le_left _ _⟩
  · exact ⟨le_trans (by norm_num) (le_max_left (20 : ℚ) _), max_le (by norm_num) (by linarith)⟩
  · exact ⟨h1, h2⟩

theorem throttleStep_zero (k : Keys) (s : ℚ) (h1 : 20 ≤ s) (h2 : s ≤ 120) :
    throttleStep k s 0 = s := by
  unfold throttleStep planeMaxSpeed planeMinSpeed
  split_ifs with hW hS hS <;> dsimp only
  · rw [show s + 40 * 0 = s by ring, min_eq_right h2, show s - 40 * 0 = s by ring,
      max_eq_right h1]
  · rw [show s + 40 * 0 = s by ring, min_eq_right h2]
  · rw [show s - 40 * 0 = s by ring, max_eq_right h1]

theorem pitchInputStep_zero (k : Keys) (p : ℚ) : pitchInputStep k p 0 = p := by
  unfold pitchInputStep
  split_ifs <;> ring

theorem rollInputStep_zero (k : Keys) (r : ℚ) : rollInputStep k r 0 = r := by
  unfold rollInputStep
  split_ifs <;> ring

theorem turnRollInputStep_zero (k : Keys) (t : ℚ) : turnRollInputStep k t 0 = t := by
  unfold turnRollInputStep
  split_ifs <;> ring

theorem yawInputStep_zero (k : Keys) (y : ℚ) : yawInputStep k y 0 = y := by
  unfold yawInputStep
  split_ifs <;> ring

theorem flying_pitch_bounds (k : Keys) (st : PlaneState) (fwd : Vec3) (d : ℚ) (hd : 0 ≤ d) :
    -1.2 ≤ (updatePlaneFlying k st fwd d).pitch ∧ (updatePlaneFlying k st fwd d).pitch ≤ 1.2 := by
  unfold updatePlaneFlying
  dsimp only
  split_ifs with hst
  · constructor
    · exact le_trans (by norm_num) (le_max_left (-0.5 : ℚ) _)
    · refine max_le (by norm_num) ?_
      have h1 := clampq_le (pitchInputStep k st.pitch d) (-1.2) 1.2 (by norm_num)
      linarith
  · exact ⟨le_clampq _ _ _, clampq_le _ _ _ (by norm_num)⟩

theorem flying_vv_bounds (k : Keys) (st : PlaneState) (fwd : Vec3) (d : ℚ) :
    -55 ≤ (updatePlaneFlying k st fwd d).verticalVelocity ∧
      (updatePlaneFlying k st fwd d).verticalVelocity ≤ 50 := by
  unfold updatePlaneFlying
  dsimp only
  exact ⟨le_clampq _ _ _, clampq_le _ _ _ (by norm_num)⟩

theorem shotdown_bounds (st : PlaneState) (fwd : Vec3) (d r : ℚ) (hd : 0 ≤ d)
    (hs2 : st.speed ≤ 120) (hp1 : -1.2 ≤ st.pitch) (hv2 : st.verticalVelocity ≤ 50) :
    15 ≤ (updatePlaneShotDown st fwd d r).speed ∧
      (updatePlaneShotDown st fwd d r).speed ≤ 120 ∧
      -1.2 ≤ (updatePlaneShotDown st fwd d r).pitch ∧
      (updatePlaneShotDown st fwd d r).pitch ≤ 1.2 ∧
      -55 ≤ (updatePlaneShotDown st fwd d r).verticalVelocity ∧
      (updatePlaneShotDown st fwd d r).verticalVelocity ≤ 50 := by
  unfold updatePlaneShotDown
  dsimp only
  refine ⟨le_max_right _ _, max_le (by linarith) (by norm_num), ?_, ?_, ?_, ?_⟩
  · exact le_min (by linarith) (by norm_num)
  · exact le_trans (min_le_right _ _) (by norm_num)
  · exact le_trans (by norm_num) (le_max_right _ _)
  · exact max_le (by linarith) (by norm_num)

/-! ## C1 -/

/-- Keys object with nothing held. -/
def noKeys : Keys :=
  ⟨false, false, false, false, false, false, false, false, false, false, false, false, false⟩

/-- Local forward unit vector of the aircraft model (0, 0, -1). -/
def fwd0 : Vec3 := ⟨0, 0, -1⟩

/-- The flag state right after an enemy missile hit: gameOver and
shotDownFalling and hitByMissile set, not crashed. -/
def shotFlags : GameFlags :=
  { gameOver := true, crashed := false, hitByMissile := true, shotDownFalling := true }

/-- An aircraft state flying at exactly minSpeed. -/
def slowShotState : PlaneState := { initialPlaneState with speed := 20 }

/-- C1 counterexample: in the ShotDown mode (where the flight update also
runs) a single tick from speed = minSpeed = 20 yields speed
20 * 0.992 = 19.84 < 20, violating the claimed invariant
minSpeed <= speed; the shot-down branch floors speed at 15, not 20. -/
theorem flight_invariant_fails_in_shotdown :
    (updatePlane shotFlags noKeys slowShotState fwd0 (1 / 20) (1 / 2)).speed < planeMinSpeed := by
  norm_num [updatePlane, shotFlags, noKeys, slowShotState, initialPlaneState,
    updatePlaneShotDown, planeMinSpeed, max_def]

/-- C1 (amended): after the flight update in Flying mode (given a
nonnegative delta and a prior speed within [minSpeed, maxSpeed]) the state
satisfies minSpeed <= speed <= maxSpeed, pitch in [-1.2, 1.2] and
verticalVelocity in [-55, 50]; in ShotDown mode the pitch and
verticalVelocity bounds still hold but speed is only guaranteed to lie in
[15, maxSpeed] — its floor 15 sits below minSpeed = 20. -/
theorem flight_invariant_amended (k : Keys) (st : PlaneState) (fwd : Vec3)
    (delta randVal : ℚ) (hd : 0 ≤ delta)
    (hs1 : planeMinSpeed ≤ st.speed) (hs2 : st.speed ≤ planeMaxSpeed)
    (hp1 : -1.2 ≤ st.pitch) (hv2 : st.verticalVelocity ≤ 50) :
    (planeMinSpeed ≤ (updatePlaneFlying k st fwd delta).speed ∧
      (updatePlaneFlying k st fwd delta).speed ≤ planeMaxSpeed ∧
      -1.2 ≤ (updatePlaneFlying k st fwd delta).pitch ∧
      (updatePlaneFlying k st fwd delta).pitch ≤ 1.2 ∧
      -55 ≤ (updatePlaneFlying k st fwd delta).verticalVelocity ∧
      (updatePlaneFlying k st fwd delta).verticalVelocity ≤ 50) ∧
    (15 ≤ (updatePlaneShotDown st fwd delta randVal).speed ∧
      (updatePlaneShotDown st fwd delta randVal).speed ≤ planeMaxSpeed ∧
      -1.2 ≤ (updatePlaneShotDown st fwd delta randVal).pitch ∧
      (updatePlaneShotDown st fwd delta randVal).pitch ≤ 1.2 ∧
      -55 ≤ (updatePlaneShotDown st fwd delta randVal).verticalVelocity ∧
      (updatePlaneShotDown st fwd delta randVal).verticalVelocity ≤ 50) := by
  have hsp : (updatePlaneFlying k st fwd delta).speed = throttleStep k st.speed delta := rfl
  have hb := throttleStep_bounds k st.speed delta hd hs1 hs2
  have hpb := flying_pitch_bounds k st fwd delta hd
  have hvb := flying_vv_bounds k st fwd delta
  have hsb := shotdown_bounds st fwd delta randVal hd hs2 hp1 hv2
  exact ⟨⟨by rw [hsp]; exact hb.1, by rw [hsp]; exact hb.2, hpb.1, hpb.2, hvb.1, hvb.2⟩, hsb⟩

/-- Witness for the amended C1 at the initial aircraft state with no keys
held and delta = 1/60. -/
theorem flight_invariant_amended_witness :
    (planeMinSpeed ≤ (updatePlaneFlying noKeys initialPlaneState fwd0 (1 / 60)).speed ∧
      (updatePlaneFlying noKeys initialPlaneState fwd0 (1 / 60)).speed ≤ planeMaxSpeed ∧
      -1.2 ≤ (updatePlaneFlying noKeys initialPlaneState fwd0 (1 / 60)).pitch ∧
      (updatePlaneFlying noKeys initialPlaneState fwd0 (1 / 60)).pitch ≤ 1.2 ∧
      -55 ≤ (updatePlaneFlying noKeys initialPlaneState fwd0 (1 / 60)).verticalVelocity ∧
      (updatePlaneFlying noKeys initialPlaneState fwd0 (1 / 60)).verticalVelocity ≤ 50) ∧
    (15 ≤ (updatePlaneShotDown initialPlaneState fwd0 (1 / 60) (1 / 2)).speed ∧
      (updatePlaneShotDown initialPlaneState fwd0 (1 / 60) (1 / 2)).speed ≤ planeMaxSpeed ∧
      -1.2 ≤ (updatePlaneShotDown initialPlaneState fwd0 (1 / 60) (1 / 2)).pitch ∧
      (updatePlaneShotDown initialPlaneState fwd0 (1 / 60) (1 / 2)).pitch ≤ 1.2 ∧
      -55 ≤ (updatePlaneShotDown initialPlaneState fwd0 (1 / 60) (1 / 2)).verticalVelocity ∧
      (updatePlaneShotDown initialPlaneState fwd0 (1 / 60) (1 / 2)).verticalVelocity ≤ 50) :=
  flight_invariant_amended noKeys initialPlaneState fwd0 (1 / 60) (1 / 2)
    (by norm_num) (by norm_num [planeMinSpeed, initialPlaneState])
    (by norm_num [planeMaxSpeed, initialPlaneState])
    (by norm_num [initialPlaneState]) (by norm_num [initialPlaneState])

/-! ## C9 -/

/-- C9: the shot-down branch decays speed geometrically (times 0.992 per
tick) with floor 15; both flight branches keep speed within [15, 120], and
the shot-down floor 15 lies strictly below the Flying minimum speed 20. -/
theorem speed_global_band (k : Keys) (st : PlaneState) (fwd : Vec3) (delta randVal : ℚ)
    (hd : 0 ≤ delta) (h1 : 15 ≤ st.speed) (h2 : st.speed ≤ 120) :
    (updatePlaneShotDown st fwd delta randVal).speed = max (st.speed * 0.992) 15 ∧
    15 ≤ (updatePlaneShotDown st fwd delta randVal).speed ∧
    (updatePlaneShotDown st fwd delta randVal).speed ≤ 120 ∧
    15 ≤ (updatePlaneFlying k st fwd delta).speed ∧
    (updatePlaneFlying k st fwd delta).speed ≤ 120 ∧
    (15 : ℚ) < planeMinSpeed := by
  have hsp : (updatePlaneFlying k st fwd delta).speed = throttleStep k st.speed delta := rfl
  have hb := throttleStep_bounds_fifteen k st.speed delta hd h1 h2
  refine ⟨rfl, le_max_right _ _, ?_, by rw [hsp]; exact hb.1, by rw [hsp]; exact hb.2,
    by norm_num [planeMinSpeed]⟩
  have hup : (updatePlaneShotDown st fwd delta randVal).speed = max (st.speed * 0.992) 15 := rfl
  rw [hup]
  exact max_le (by linarith) (by norm_num)

/-- Witness for C9 at speed 16 (below the Flying minimum but inside the
global band). -/
theorem speed_global_band_witness :
    ((updatePlaneShotDown slowShotState fwd0 (1 / 60) (1 / 2)).speed =
        max (slowShotState.speed * 0.992) 15 ∧
      15 ≤ (updatePlaneShotDown slowShotState fwd0 (1 / 60) (1 / 2)).speed ∧
      (updatePlaneShotDown slowShotState fwd0 (1 / 60) (1 / 2)).speed ≤ 120 ∧
      15 ≤ (updatePlaneFlying noKeys slowShotState fwd0 (1 / 60)).speed ∧
      (updatePlaneFlying noKeys slowShotState fwd0 (1 / 60)).speed ≤ 120 ∧
      (15 : ℚ) < planeMinSpeed) :=
  speed_global_band noKeys slowShotState fwd0 (1 / 60) (1 / 2)
    (by norm_num) (by norm_num [slowShotState, initialPlaneState])
    (by norm_num [slowShotState, initialPlaneState])

/-! ## C8 -/

/-- An aircraft state with a nonzero bank, to exhibit the per-tick roll
decay. -/
def rolledState : PlaneState := { initialPlaneState with roll := 1 }

/-- C8 counterexample: with delta = 0 and no keys held, the flight update
still multiplies roll by 0.995 (the decay is per tick, not delta-scaled),
so a state with roll = 1 comes back with roll = 0.995: the update is not a
no-op on every field. -/
theorem zero_delta_not_noop :
    (updatePlaneFlying noKeys rolledState fwd0 0).roll ≠ rolledState.roll := by
  norm_num [updatePlaneFlying, rollInputStep, noKeys, rolledState, initialPlaneState]

/-- C8 (amended): with delta = 0 the flight update leaves position,
heading (rotation.y), speed, pitch and verticalVelocity unchanged for
every combination of held keys (given the state lies in its invariant
ranges), but it is not a complete no-op: roll and turnRoll are still
multiplied by their per-tick decay 0.995 and yaw by 0.95, velocity is
rewritten to forward * speed, and rotation.x / rotation.z are refreshed
from the decayed values. -/
theorem zero_delta_flight_effect (k : Keys) (st : PlaneState) (fwd : Vec3)
    (hs1 : planeMinSpeed ≤ st.speed) (hs2 : st.speed ≤ planeMaxSpeed)
    (hp1 : -1.2 ≤ st.pitch) (hp2 : st.pitch ≤ 1.2)
    (hv1 : -55 ≤ st.verticalVelocity) (hv2 : st.verticalVelocity ≤ 50) :
    (updatePlaneFlying k st fwd 0).position = st.position ∧
    (updatePlaneFlying k st fwd 0).rotY = st.rotY ∧
    (updatePlaneFlying k st fwd 0).speed = st.speed ∧
    (updatePlaneFlying k st fwd 0).pitch = st.pitch ∧
    (updatePlaneFlying k st fwd 0).verticalVelocity = st.verticalVelocity ∧
    (updatePlaneFlying k st fwd 0).roll = st.roll * 0.995 ∧
    (updatePlaneFlying k st fwd 0).turnRoll = st.turnRoll * 0.995 ∧
    (updatePlaneFlying k st fwd 0).yaw = st.yaw * 0.95 ∧
    (updatePlaneFlying k st fwd 0).velocity = Vec3.smul st.speed fwd ∧
    (updatePlaneFlying k st fwd 0).rotX = st.pitch ∧
    (updatePlaneFlying k st fwd 0).rotZ = -(st.roll * 0.995) := by
  have hth := throttleStep_zero k st.speed (by exact hs1) (by exact hs2)
  have hpi := pitchInputStep_zero k st.pitch
  have hro := rollInputStep_zero k st.roll
  have htr := turnRollInputStep_zero k st.turnRoll
  have hya := yawInputStep_zero k st.yaw
  have hvv0 : ∀ L : ℚ, st.verticalVelocity + (-22 + L) * 0 = st.verticalVelocity := by
    intro L; ring
  have hposz : ∀ (a v : Vec3) (c : ℚ),
      (⟨(a.add (Vec3.smul 0 v)).x, (a.add (Vec3.smul 0 v)).y + c * 0,
        (a.add (Vec3.smul 0 v)).z⟩ : Vec3) = a := by
    intro a v c
    cases a
    simp [Vec3.add, Vec3.smul]
  unfold updatePlaneFlying
  dsimp only
  rw [hth, hpi, hro, htr, hya, clampq_eq_self st.pitch (-1.2) 1.2 hp1 hp2, hvv0,
    clampq_eq_self st.verticalVelocity (-55) 50 hv1 hv2]
  refine ⟨hposz _ _ _, by ring, rfl, ?_, rfl, rfl, rfl, rfl, rfl, rfl, rfl⟩
  split_ifs with hst
  · have h := of_decide_eq_true hst
    rw [show st.pitch - 1.5 * 0 = st.pitch by ring]
    exact max_eq_right (by linarith [h.2])
  · rfl

/-- Witness for the amended C8 at a rolled state with all keys held. -/
def allKeys : Keys :=
  ⟨true, true, true, true, true, true, true, true, true, true, true, true, true⟩

/-- Witness for the amended C8: concrete evaluation at roll = 1, all keys
held, delta = 0. -/
theorem zero_delta_flight_effect_witness :
    (updatePlaneFlying allKeys rolledState fwd0 0).position = rolledState.position ∧
    (updatePlaneFlying allKeys rolledState fwd0 0).rotY = rolledState.rotY ∧
    (updatePlaneFlying allKeys rolledState fwd0 0).speed = rolledState.speed ∧
    (updatePlaneFlying allKeys rolledState fwd0 0).pitch = rolledState.pitch ∧
    (updatePlaneFlying allKeys rolledState fwd0 0).verticalVelocity =
      rolledState.verticalVelocity ∧
    (updatePlaneFlying allKeys rolledState fwd0 0).roll = rolledState.roll * 0.995 ∧
    (updatePlaneFlying allKeys rolledState fwd0 0).turnRoll = rolledState.turnRoll * 0.995 ∧
    (updatePlaneFlying allKeys rolledState fwd0 0).yaw = rolledState.yaw * 0.95 ∧
    (updatePlaneFlying allKeys rolledState fwd0 0).velocity =
      Vec3.smul rolledState.speed fwd0 ∧
    (updatePlaneFlying allKeys rolledState fwd0 0).rotX = rolledState.pitch ∧
    (updatePlaneFlying allKeys rolledState fwd0 0).rotZ = -(rolledState.roll * 0.995) :=
  zero_delta_flight_effect allKeys rolledState fwd0
    (by norm_num [planeMinSpeed, rolledState, initialPlaneState])
    (by norm_num [planeMaxSpeed, rolledState, initialPlaneState])
    (by norm_num [rolledState, initialPlaneState])
    (by norm_num [rolledState, initialPlaneState])
    (by norm_num [rolledState, initialPlaneState])
    (by norm_num [rolledState, initialPlaneState])

/-! ## C5 -/

/-- Constant-zero stand-in for a trigonometric oracle (the out-of-bounds
branches never consult it). -/
def zeroFun : ℚ → ℚ := fun _ => 0

/-- Constant-zero stand-in for the in-bounds height function. -/
def zeroFun2 : ℚ → ℚ → ℚ := fun _ _ => 0

/-- C5 counterexample: at the out-of-bounds coordinates (5000, 0) the
game.js terrain height query returns 0, not the claimed sentinel -10. -/
theorem terrain_oob_not_minus_ten :
    getTerrainHeight zeroFun zeroFun 5000 0 ≠ -10 := by
  norm_num [getTerrainHeight, terrainSize]

/-- C5 (amended): for every coordinate pair whose shifted coordinates lie
outside [0, 2 * terrainSize], the part_000 build's terrain height query
returns the sentinel -10, while the game.js build's query returns 0 —
both independently of the noise functions. -/
theorem terrain_oob_sentinel (sinq cosq : ℚ → ℚ) (heightAt : ℚ → ℚ → ℚ) (x z : ℚ)
    (h : x + terrainSize < 0 ∨ x + terrainSize > terrainSize * 2 ∨
      z + terrainSize < 0 ∨ z + terrainSize > terrainSize * 2) :
    getTerrainHeightFalloff heightAt x z = -10 ∧ getTerrainHeight sinq cosq x z = 0 := by
  unfold getTerrainHeightFalloff getTerrainHeight
  dsimp only
  rw [if_pos h, if_pos h]
  exact ⟨rfl, rfl⟩

/-- Witness for the amended C5 at (5000, 0), whose shifted x coordinate
9000 exceeds 2 * terrainSize = 8000. -/
theorem terrain_oob_sentinel_witness :
    getTerrainHeightFalloff zeroFun2 5000 0 = -10 ∧
      getTerrainHeight zeroFun zeroFun 5000 0 = 0 :=
  terrain_oob_sentinel zeroFun zeroFun zeroFun2 5000 0 (by norm_num [terrainSize])

/-! ## C3 -/

theorem enemyMissileStep_flags (f : GameFlags) (planePos : Vec3) (pp : Bool)
    (m : Missile) (dirLen velLen delta now : ℚ) :
    (enemyMissileStep f planePos pp m dirLen velLen delta now).2 =
      (if enemyProximityHit planePos m dirLen velLen delta pp = true
       then missileHitFlags f else f) := rfl

theorem updateMissilesList_crashed (planePos : Vec3) (pp : Bool) (delta now : ℚ) :
    ∀ (L : List (Missile × ℚ × ℚ)) (f : GameFlags),
      (updateMissilesList f planePos pp delta now L).2.crashed = f.crashed := by
  intro L
  induction L with
  | nil => intro f; rfl
  | cons hd t ih =>
    intro f
    obtain ⟨m, dl, vl⟩ := hd
    unfold updateMissilesList
    dsimp only
    split_ifs with hm
    · rw [ih]
      rw [enemyMissileStep_flags]
      split_ifs with hh
      · rfl
      · rfl
    · exact ih f

/-- C3: from Flying flags, an enemy missile whose proximity check succeeds
flips the game to ShotDown with crashed still false, and the whole
updateMissiles pass never changes the crashed flag (updateMissiles is the
last flag-touching update of the tick, and updatePlane's collision check
runs before it, so the tick cannot also reach Crashed); from ShotDown
flags, a terrain-height collision in checkCollision yields Crashed. -/
theorem shotdown_then_crash_transitions
    (f : GameFlags) (planePos : Vec3) (m : Missile) (dirLen velLen delta now : ℚ)
    (L : List (Missile × ℚ × ℚ)) (g : GameFlags) (planePos2 : Vec3) (terrainH : ℚ)
    (trees : List Tree)
    (hf : f.crashed = false)
    (hHit : enemyProximityHit planePos m dirLen velLen delta true = true)
    (hg : g.crashed = false) (hgs : g.shotDownFalling = true)
    (hcol : planePos2.y - 0.8 ≤ terrainH + 0.3) :
    (enemyMissileStep f planePos true m dirLen velLen delta now).2.mode =
      GameMode.ShotDown ∧
    (enemyMissileStep f planePos true m dirLen velLen delta now).2.crashed = false ∧
    (updateMissilesList f planePos true delta now L).2.crashed = f.crashed ∧
    (checkCollision g planePos2 terrainH trees).mode = GameMode.Crashed := by
  refine ⟨?_, ?_, updateMissilesList_crashed planePos true delta now L f, ?_⟩
  · rw [enemyMissileStep_flags, if_pos hHit]
    unfold GameFlags.mode missileHitFlags
    simp [hf]
  · rw [enemyMissileStep_flags, if_pos hHit]
    unfold missileHitFlags
    simpa using hf
  · unfold checkCollision
    rw [if_pos hcol]
    unfold triggerCrashFlags GameFlags.mode
    simp [hg]

/-- A concrete enemy missile used by the C3 witness: 3 units in front of
the aircraft and flying straight at it. -/
def nearMissile : Missile :=
  { position := ⟨0, 100, 3⟩, velocity := ⟨0, 0, -65⟩, active := true, spawnTime := 0 }

/-- Aircraft position for the missile scenarios. -/
def scenePlanePos : Vec3 := ⟨0, 100, 0⟩

/-- Witness for C3: the missile at distance 3 (homing with delta = 0, so
its velocity and position are unchanged by the correction) trips the
proximity check; a ShotDown flag state over colliding terrain goes to
Crashed. -/
theorem shotdown_then_crash_transitions_witness :
    (enemyMissileStep restartFlags scenePlanePos true nearMissile 3 65 0 0).2.mode =
      GameMode.ShotDown ∧
    (enemyMissileStep restartFlags scenePlanePos true nearMissile 3 65 0 0).2.crashed = false ∧
    (updateMissilesList restartFlags scenePlanePos true 0 0 []).2.crashed =
      restartFlags.crashed ∧
    (checkCollision shotFlags ⟨0, 0, 0⟩ 10 []).mode = GameMode.Crashed :=
  shotdown_then_crash_transitions restartFlags scenePlanePos nearMissile 3 65 0 0 []
    shotFlags ⟨0, 0, 0⟩ 10 [] rfl
    (by norm_num [enemyProximityHit, enemyMissileNewPos, enemyHomingVelocity, nearMissile,
      scenePlanePos, Vec3.normSq, Vec3.sub, Vec3.add, Vec3.smul, Vec3.lerp,
      Vec3.normalizeWith, Vec3.divideScalar, Vec3.clampLengthWith, max_def, min_def])
    rfl rfl (by norm_num)

/-! ## C10 -/

/-- The placement oracle that accepts every candidate, with a fixed
position. -/
def allAcceptPlacement : CannonPlacement :=
  { accept := fun _ => true, posOf := fun _ => ⟨0, 0, 0⟩ }

/-- A concrete world in the shot-down state. -/
def sampleWorld : World :=
  { flags := shotFlags, planeState := initialPlaneState, missiles := [],
    playerMissiles := [], cannons := [], explosionParticles := [],
    groundFireParticles := [], lockedCannon := none, reloadLeft := 0, reloadRight := 0,
    camThetaOffset := 0, camPhiOffset := 0, nextMissileWing := 0 }

/-- C10: whenever gameOver is set the cannon update returns immediately —
no cannon fires and no fire timer changes; the enemy-missile hit (which
produces the ShotDown state) and triggerCrash (which produces Crashed)
both set gameOver, and only restart clears it. -/
theorem cannons_inert_after_gameover (f g : GameFlags) (pp : Bool) (planePos : Vec3)
    (now : ℚ) (cs : List Cannon) (P : CannonPlacement) (w : World)
    (hf : f.gameOver = true) (hgc : g.crashed = false) :
    updateCannons f pp planePos now cs = (cs, 0) ∧
    (missileHitFlags g).gameOver = true ∧
    (triggerCrashFlags g).gameOver = true ∧
    (restart P w).flags.gameOver = false := by
  refine ⟨?_, rfl, ?_, rfl⟩
  · unfold updateCannons
    rw [hf]
    simp
  · unfold triggerCrashFlags
    simp [hgc]

/-- Witness for C10 with the shot-down flag state, a nonempty cannon list
and the all-accepting placement. -/
def sampleCannon : Cannon :=
  { position := ⟨0, 0, -100⟩, lastFireTime := 0, active := true, radius := 5 }

/-- Witness for C10: concrete evaluation in the ShotDown state. -/
theorem cannons_inert_after_gameover_witness :
    updateCannons shotFlags true scenePlanePos 10 [sampleCannon] = ([sampleCannon], 0) ∧
    (missileHitFlags restartFlags).gameOver = true ∧
    (triggerCrashFlags restartFlags).gameOver = true ∧
    (restart allAcceptPlacement sampleWorld).flags.gameOver = false :=
  cannons_inert_after_gameover shotFlags restartFlags true scenePlanePos 10 [sampleCannon]
    allAcceptPlacement sampleWorld rfl rfl

/-! ## C7 -/

/-- The player missile spawned from a wing hardpoint: wing-local offset
(x = -+ wingSpan/2 -+ 0.5, y = -0.55, z = -0.3) rotated into world space
and added to the aircraft position, velocity 180 along the rotated
forward vector, the lock-on target captured, homing strength 2.2. -/
def wingSpawn (planePos : Vec3) (applyQ : Vec3 → Vec3) (fromLeft : Bool)
    (locked : Option Cannon) (now : ℚ) : PlayerMissile :=
  { position :=
      planePos.add (applyQ ⟨if fromLeft then -14 / 2 + 0.5 else 14 / 2 - 0.5, -0.55, -0.3⟩),
    velocity := Vec3.smul 180 (applyQ ⟨0, 0, -1⟩), active := true, spawnTime := now,
    target := locked, homingStrength := 2.2 }

theorem fire_first_from_left (fs : FireState) (planePos : Vec3) (applyQ : Vec3 → Vec3)
    (locked : Option Cannon) (t : ℚ)
    (hL : fs.reloadLeft ≤ 0) (hR : fs.reloadRight ≤ 0) (hw : fs.nextMissileWing = 0) :
    firePlayerMissile true fs planePos applyQ locked t =
      ({ fs with
          reloadLeft := missileReloadTime
          nextMissileWing := 1
          missiles := fs.missiles ++ [wingSpawn planePos applyQ true locked t] },
        some Wing.left) := by
  have hLd : decide (fs.reloadLeft ≤ 0) = true := decide_eq_true hL
  have hRd : decide (fs.reloadRight ≤ 0) = true := decide_eq_true hR
  simp [firePlayerMissile, hLd, hRd, hw, wingSpawn]

theorem fire_second_from_right (fs : FireState) (planePos : Vec3) (applyQ : Vec3 → Vec3)
    (locked : Option Cannon) (t : ℚ)
    (hL : ¬fs.reloadLeft ≤ 0) (hR : fs.reloadRight ≤ 0) (hw : fs.nextMissileWing = 1) :
    firePlayerMissile true fs planePos applyQ locked t =
      ({ fs with
          reloadRight := missileReloadTime
          nextMissileWing := 0
          missiles := fs.missiles ++ [wingSpawn planePos applyQ false locked t] },
        some Wing.right) := by
  have hLd : decide (fs.reloadLeft ≤ 0) = false := decide_eq_false hL
  have hRd : decide (fs.reloadRight ≤ 0) = true := decide_eq_true hR
  simp [firePlayerMissile, hLd, hRd, hw, wingSpawn]

theorem fire_noop_on_cooldown (fs : FireState) (planePos : Vec3) (applyQ : Vec3 → Vec3)
    (locked : Option Cannon) (t : ℚ)
    (hL : ¬fs.reloadLeft ≤ 0) (hR : ¬fs.reloadRight ≤ 0) :
    firePlayerMissile true fs planePos applyQ locked t = (fs, none) := by
  have hLd : decide (fs.reloadLeft ≤ 0) = false := decide_eq_false hL
  have hRd : decide (fs.reloadRight ≤ 0) = false := decide_eq_false hR
  simp [firePlayerMissile, hLd, hRd]

/-- C7: with both hardpoints off cooldown and the alternation index at its
configured start (0 = left), the first fire call fires from the left wing
and sets only the left reload timer to 3 seconds; an immediately
following call fires from the right wing, which is still ready; a third
call made while both reload timers are positive changes nothing and fires
nothing. -/
theorem fire_alternates (fs : FireState) (planePos : Vec3) (applyQ : Vec3 → Vec3)
    (locked : Option Cannon) (t1 t2 t3 : ℚ)
    (hL : fs.reloadLeft ≤ 0) (hR : fs.reloadRight ≤ 0) (hw : fs.nextMissileWing = 0) :
    (firePlayerMissile true fs planePos applyQ locked t1).2 = some Wing.left ∧
    (firePlayerMissile true fs planePos applyQ locked t1).1.reloadLeft = missileReloadTime ∧
    (firePlayerMissile true fs planePos applyQ locked t1).1.reloadRight = fs.reloadRight ∧
    (firePlayerMissile true (firePlayerMissile true fs planePos applyQ locked t1).1
        planePos applyQ locked t2).2 = some Wing.right ∧
    (firePlayerMissile true (firePlayerMissile true fs planePos applyQ locked t1).1
        planePos applyQ locked t2).1.reloadLeft = missileReloadTime ∧
    (firePlayerMissile true (firePlayerMissile true fs planePos applyQ locked t1).1
        planePos applyQ locked t2).1.reloadRight = missileReloadTime ∧
    firePlayerMissile true
        (firePlayerMissile true (firePlayerMissile true fs planePos applyQ locked t1).1
          planePos applyQ locked t2).1 planePos applyQ locked t3 =
      ((firePlayerMissile true (firePlayerMissile true fs planePos applyQ locked t1).1
          planePos applyQ locked t2).1, none) := by
  have e1 := fire_first_from_left fs planePos applyQ locked t1 hL hR hw
  rw [e1]
  have e2 := fire_second_from_right
    { fs with
      reloadLeft := missileReloadTime
      nextMissileWing := 1
      missiles := fs.missiles ++ [wingSpawn planePos applyQ true locked t1] }
    planePos applyQ locked t2 (by norm_num [missileReloadTime]) hR rfl
  rw [e2]
  have e3 := fire_noop_on_cooldown
    { fs with
      reloadLeft := missileReloadTime
      reloadRight := missileReloadTime
      nextMissileWing := 0
      missiles := (fs.missiles ++ [wingSpawn planePos applyQ true locked t1]) ++
        [wingSpawn planePos applyQ false locked t2] }
    planePos applyQ locked t3 (by norm_num [missileReloadTime])
    (by norm_num [missileReloadTime])
  refine ⟨rfl, rfl, rfl, rfl, rfl, rfl, ?_⟩
  exact e3

/-- A ready fire state: both reload timers at zero, alternation index at
the configured start. -/
def readyFireState : FireState :=
  { reloadLeft := 0, reloadRight := 0, nextMissileWing := 0, missiles := [] }

/-- Identity stand-in for the quaternion application (level flight). -/
def idQ : Vec3 → Vec3 := fun v => v

/-- Witness for C7 at the ready state with no lock-on target. -/
theorem fire_alternates_witness :
    (firePlayerMissile true readyFireState scenePlanePos idQ none 1).2 = some Wing.left ∧
    (firePlayerMissile true readyFireState scenePlanePos idQ none 1).1.reloadLeft =
      missileReloadTime ∧
    (firePlayerMissile true readyFireState scenePlanePos idQ none 1).1.reloadRight =
      readyFireState.reloadRight ∧
    (firePlayerMissile true (firePlayerMissile true readyFireState scenePlanePos idQ none 1).1
        scenePlanePos idQ none 1).2 = some Wing.right ∧
    (firePlayerMissile true (firePlayerMissile true readyFireState scenePlanePos idQ none 1).1
        scenePlanePos idQ none 1).1.reloadLeft = missileReloadTime ∧
    (firePlayerMissile true (firePlayerMissile true readyFireState scenePlanePos idQ none 1).1
        scenePlanePos idQ none 1).1.reloadRight = missileReloadTime ∧
    firePlayerMissile true
        (firePlayerMissile true (firePlayerMissile true readyFireState scenePlanePos idQ none 1).1
          scenePlanePos idQ none 1).1 scenePlanePos idQ none 1 =
      ((firePlayerMissile true (firePlayerMissile true readyFireState scenePlanePos idQ none 1).1
          scenePlanePos idQ none 1).1, none) :=
  fire_alternates readyFireState scenePlanePos idQ none 1 1 1 le_rfl le_rfl rfl

/-! ## C4 -/

/-- An enemy missile 100 units below the (out-of-bounds, height 0) ground. -/
def belowTerrainMissile : Missile :=
  { position := ⟨5000, -100, 5000⟩, velocity := ⟨65, 0, 0⟩, active := true, spawnTime := 0 }

/-- An aircraft position 100 units ahead of belowTerrainMissile. -/
def farPlanePos : Vec3 := ⟨5100, -100, 5000⟩

/-- C4 counterexample: an active enemy missile whose position is far below
the terrain surface (y = -100 against height 0) survives its update tick
still active — updateMissiles has no terrain-impact check, so the claimed
shared check order does not hold for the enemy missile kind. -/
theorem enemy_missile_ignores_terrain :
    belowTerrainMissile.position.y ≤
      getTerrainHeight zeroFun zeroFun belowTerrainMissile.position.x
        belowTerrainMissile.position.z + 0.5 ∧
    (enemyMissileStep restartFlags farPlanePos true belowTerrainMissile 100 71
        (1 / 10) 0).1.active = true := by
  constructor
  · norm_num [belowTerrainMissile, getTerrainHeight, terrainSize, zeroFun]
  · norm_num [enemyMissileStep, enemyHomingVelocity, belowTerrainMissile, farPlanePos,
      restartFlags, missileHitFlags, Vec3.normSq, Vec3.sub, Vec3.add, Vec3.smul, Vec3.lerp,
      Vec3.normalizeWith, Vec3.divideScalar, Vec3.clampLengthWith, max_def, min_def]

/-- C4 (amended): the two missile kinds do not share the collision-check
list.  A player missile's update applies the checks in order starting
with terrain impact: whenever its integrated position satisfies
y <= terrainHeight(x, z) + 0.5 it is deactivated on that tick and the
remaining checks are skipped (the cannon list is untouched).  An enemy
missile's update has no terrain check at all: an active enemy missile
below terrain height stays active as long as the player-proximity check
fails and its lifetime has not expired. -/
theorem missile_terrain_check_player_only
    (pm : PlayerMissile) (cannons : List Cannon) (terrain : ℚ → ℚ → ℚ)
    (dlP lenP delta now : ℚ)
    (f : GameFlags) (planePos : Vec3) (m : Missile) (dlE lenE delta2 now2 : ℚ)
    (sinq cosq : ℚ → ℚ)
    (hterr : (playerMissileNewPos pm dlP lenP delta).y ≤
      terrain (playerMissileNewPos pm dlP lenP delta).x
        (playerMissileNewPos pm dlP lenP delta).z + 0.5)
    (hm : m.active = true)
    (hbelow : (enemyMissileNewPos planePos m dlE lenE delta2).y ≤
      getTerrainHeight sinq cosq (enemyMissileNewPos planePos m dlE lenE delta2).x
        (enemyMissileNewPos planePos m dlE lenE delta2).z + 0.5)
    (hnohit : Vec3.normSq ((enemyMissileNewPos planePos m dlE lenE delta2).sub planePos) ≥
      4 ^ 2)
    (hnoexp : ¬now2 - m.spawnTime > 8000) :
    (playerMissileStep pm cannons terrain dlP lenP delta now).1.active = false ∧
    (playerMissileStep pm cannons terrain dlP lenP delta now).2 = cannons ∧
    (enemyMissileStep f planePos true m dlE lenE delta2 now2).1.active = true := by
  have hh : decide (Vec3.normSq ((enemyMissileNewPos planePos m dlE lenE delta2).sub
      planePos) < 4 ^ 2) = false := decide_eq_false (not_lt.mpr hnohit)
  have he : decide (now2 - m.spawnTime > 8000) = false := decide_eq_false hnoexp
  unfold enemyMissileNewPos at hh
  have hterr2 := hterr
  unfold playerMissileNewPos at hterr2
  refine ⟨?_, ?_, ?_⟩
  · unfold playerMissileStep
    dsimp only
    rw [if_pos hterr2]
  · unfold playerMissileStep
    dsimp only
    rw [if_pos hterr2]
  · unfold enemyMissileStep
    dsimp only
    simp [hh, he, hm]

/-- A player missile with no target, diving toward flat ground. -/
def divingPlayerMissile : PlayerMissile :=
  { position := ⟨0, 0, 0⟩, velocity := ⟨0, -10, 0⟩, active := true, spawnTime := 0,
    target := none, homingStrength := 2.2 }

/-- Witness for the amended C4: the diving player missile is deactivated
by the terrain check with the cannon list untouched, while the
below-terrain enemy missile stays active. -/
theorem missile_terrain_check_player_only_witness :
    (playerMissileStep divingPlayerMissile [sampleCannon] zeroFun2 10 10
        (1 / 10) 0).1.active = false ∧
    (playerMissileStep divingPlayerMissile [sampleCannon] zeroFun2 10 10
        (1 / 10) 0).2 = [sampleCannon] ∧
    (enemyMissileStep restartFlags farPlanePos true belowTerrainMissile 100 71
        (1 / 10) 0).1.active = true :=
  missile_terrain_check_player_only divingPlayerMissile [sampleCannon] zeroFun2 10 10
    (1 / 10) 0 restartFlags farPlanePos belowTerrainMissile 100 71 (1 / 10) 0
    zeroFun zeroFun
    (by norm_num [playerMissileNewPos, playerMissileVel, divingPlayerMissile, zeroFun2,
      Vec3.add, Vec3.smul])
    rfl
    (by norm_num [enemyMissileNewPos, enemyHomingVelocity, belowTerrainMissile, farPlanePos,
      getTerrainHeight, terrainSize, zeroFun, Vec3.normSq, Vec3.sub, Vec3.add, Vec3.smul,
      Vec3.lerp, Vec3.normalizeWith, Vec3.divideScalar, Vec3.clampLengthWith, max_def, min_def])
    (by norm_num [enemyMissileNewPos, enemyHomingVelocity, belowTerrainMissile, farPlanePos,
      Vec3.normSq, Vec3.sub, Vec3.add, Vec3.smul,
      Vec3.lerp, Vec3.normalizeWith, Vec3.divideScalar, Vec3.clampLengthWith, max_def, min_def])
    (by norm_num [belowTerrainMissile])

/-! ## C2 -/

theorem vec3_cauchy_schwarz (a b : Vec3) :
    Vec3.dot a b ^ 2 ≤ Vec3.normSq a * Vec3.normSq b := by
  unfold Vec3.dot Vec3.normSq
  nlinarith [sq_nonneg (a.x * b.y - a.y * b.x), sq_nonneg (a.x * b.z - a.z * b.x),
    sq_nonneg (a.y * b.z - a.z * b.y)]

theorem normSq_lerp_smul (v u : Vec3) (tgt α : ℚ) :
    Vec3.normSq (v.lerp (Vec3.smul tgt u) α) =
      (1 - α) ^ 2 * Vec3.normSq v + 2 * (1 - α) * (α * tgt) * Vec3.dot v u +
        (α * tgt) ^ 2 * Vec3.normSq u := by
  unfold Vec3.lerp Vec3.smul Vec3.normSq Vec3.dot
  ring

theorem normalizeWith_unit (d : Vec3) (len : ℚ) (h : len ^ 2 = Vec3.normSq d)
    (h0 : len ≠ 0) : Vec3.normSq (d.normalizeWith len) = 1 := by
  unfold Vec3.normalizeWith Vec3.divideScalar
  rw [if_neg h0]
  have hs : Vec3.normSq (Vec3.smul (1 / len) d) = (1 / len) ^ 2 * Vec3.normSq d := by
    unfold Vec3.normSq Vec3.smul
    ring
  rw [hs, ← h]
  field_simp

theorem lerp_normSq_lower (v u : Vec3) (lenV tgt α : ℚ)
    (hu : Vec3.normSq u = 1) (hV : lenV ^ 2 = Vec3.normSq v) (hlenV : 0 ≤ lenV)
    (hα0 : 0 ≤ α) (hα1 : α ≤ 1) (htgt : 0 ≤ tgt) :
    ((1 - α) * lenV - α * tgt) ^ 2 ≤ Vec3.normSq (v.lerp (Vec3.smul tgt u) α) := by
  have hcs := vec3_cauchy_schwarz v u
  have hdot : -lenV ≤ Vec3.dot v u := by nlinarith
  rw [normSq_lerp_smul, hu, ← hV]
  nlinarith [mul_nonneg (mul_nonneg (sub_nonneg.mpr hα1) (mul_nonneg hα0 htgt))
    (by linarith : (0 : ℚ) ≤ Vec3.dot v u + lenV)]

theorem clampLength_band (w : Vec3) (lenW lo hi : ℚ)
    (hW : lenW ^ 2 = Vec3.normSq w) (h0 : 0 < lenW) (hlohi : lo ≤ hi) :
    Vec3.normSq (w.clampLengthWith lenW lo hi) = clampq lenW lo hi ^ 2 ∧
      lo ≤ clampq lenW lo hi ∧ clampq lenW lo hi ≤ hi := by
  unfold Vec3.clampLengthWith Vec3.divideScalar clampq
  rw [if_neg (ne_of_gt h0)]
  refine ⟨?_, le_max_left _ _, max_le hlohi (min_le_left _ _)⟩
  have h1 : Vec3.normSq (Vec3.smul (max lo (min hi lenW)) (Vec3.smul (1 / lenW) w)) =
      max lo (min hi lenW) ^ 2 * ((1 / lenW) ^ 2 * Vec3.normSq w) := by
    unfold Vec3.normSq Vec3.smul
    ring
  rw [h1, ← hW]
  have h2 : (1 / lenW) ^ 2 * lenW ^ 2 = 1 := by
    field_simp
  rw [h2, mul_one]

theorem homing_band (v u : Vec3) (lenV lenW tgt α lo hi : ℚ)
    (hu : Vec3.normSq u = 1)
    (hV : lenV ^ 2 = Vec3.normSq v) (hlo : lo ≤ lenV) (hhi : lenV ≤ hi)
    (hW : lenW ^ 2 = Vec3.normSq (v.lerp (Vec3.smul tgt u) α)) (hW0 : 0 ≤ lenW)
    (hα0 : 0 ≤ α) (hα1 : α ≤ 1) (htgt : 0 ≤ tgt)
    (hgap : α * tgt < (1 - α) * lo) (hlopos : 0 < lo) (hlohi : lo ≤ hi) :
    Vec3.normSq ((v.lerp (Vec3.smul tgt u) α).clampLengthWith lenW lo hi) =
      clampq lenW lo hi ^ 2 ∧ lo ≤ clampq lenW lo hi ∧ clampq lenW lo hi ≤ hi := by
  have hlenV0 : 0 ≤ lenV := le_trans (le_of_lt hlopos) hlo
  have hlow := lerp_normSq_lower v u lenV tgt α hu hV hlenV0 hα0 hα1 htgt
  have hpos : 0 < (1 - α) * lenV - α * tgt := by
    have h1 : (1 - α) * lo ≤ (1 - α) * lenV :=
      mul_le_mul_of_nonneg_left hlo (by linarith)
    linarith
  have hW2pos : 0 < lenW ^ 2 := by
    rw [hW]
    exact lt_of_lt_of_le (pow_pos hpos 2) hlow
  have hWpos : 0 < lenW := by nlinarith
  exact clampLength_band _ lenW lo hi hW hWpos hlohi

/-- C2: after the homing correction of a tick (with delta in [0, 0.1] as
guaranteed by the frame-delta clamp), the velocity magnitude of an enemy
missile lies in [65, 115] and that of a player missile with a live target
lies in [120, 220], provided the incoming magnitude was in the band (as
it is at spawn: 65 and 180).  The magnitudes are carried as the explicit
length arguments lenVE/lenWE (enemy) and lenVP/lenWP (player), constrained
to square to the corresponding squared norms. -/
theorem missile_speed_band
    (planePos : Vec3) (m : Missile) (dlE lenVE lenWE deltaE : ℚ)
    (pm : PlayerMissile) (c : Cannon) (dlP lenVP lenWP deltaP : ℚ)
    (hdE : dlE ^ 2 = Vec3.normSq (planePos.sub m.position)) (hdE0 : dlE ≠ 0)
    (hVE : lenVE ^ 2 = Vec3.normSq m.velocity) (hVE1 : 65 ≤ lenVE) (hVE2 : lenVE ≤ 115)
    (hWE : lenWE ^ 2 = Vec3.normSq (m.velocity.lerp
      (Vec3.smul 105 ((planePos.sub m.position).normalizeWith dlE)) (1.5 * deltaE)))
    (hWE0 : 0 ≤ lenWE) (hdE1 : 0 ≤ deltaE) (hdE2 : deltaE ≤ 0.1)
    (hmt : pm.target = some c) (hca : c.active = true) (hhs : pm.homingStrength = 2.2)
    (hdP : dlP ^ 2 = Vec3.normSq (c.position.sub pm.position)) (hdP0 : dlP ≠ 0)
    (hVP : lenVP ^ 2 = Vec3.normSq pm.velocity) (hVP1 : 120 ≤ lenVP) (hVP2 : lenVP ≤ 220)
    (hWP : lenWP ^ 2 = Vec3.normSq (pm.velocity.lerp
      (Vec3.smul 200 ((c.position.sub pm.position).normalizeWith dlP))
      (pm.homingStrength * deltaP)))
    (hWP0 : 0 ≤ lenWP) (hdP1 : 0 ≤ deltaP) (hdP2 : deltaP ≤ 0.1) :
    (Vec3.normSq (enemyHomingVelocity planePos m dlE lenWE deltaE) =
        clampq lenWE 65 115 ^ 2 ∧ 65 ≤ clampq lenWE 65 115 ∧ clampq lenWE 65 115 ≤ 115) ∧
    (Vec3.normSq (playerMissileVel pm dlP lenWP deltaP) =
        clampq lenWP 120 220 ^ 2 ∧ 120 ≤ clampq lenWP 120 220 ∧
        clampq lenWP 120 220 ≤ 220) := by
  have huE := normalizeWith_unit (planePos.sub m.position) dlE hdE hdE0
  have hbE := homing_band m.velocity ((planePos.sub m.position).normalizeWith dlE)
    lenVE lenWE 105 (1.5 * deltaE) 65 115 huE hVE hVE1 hVE2 hWE hWE0
    (by linarith) (by linarith) (by norm_num) (by nlinarith) (by norm_num) (by norm_num)
  have huP := normalizeWith_unit (c.position.sub pm.position) dlP hdP hdP0
  have hbP := homing_band pm.velocity ((c.position.sub pm.position).normalizeWith dlP)
    lenVP lenWP 200 (pm.homingStrength * deltaP) 120 220 huP hVP hVP1 hVP2 hWP hWP0
    (by rw [hhs]; linarith) (by rw [hhs]; linarith) (by norm_num)
    (by rw [hhs]; nlinarith) (by norm_num) (by norm_num)
  constructor
  · unfold enemyHomingVelocity
    dsimp only
    exact hbE
  · have hv : playerMissileVel pm dlP lenWP deltaP =
        playerHomingVelocity pm c dlP lenWP deltaP := by
      unfold playerMissileVel
      rw [hmt]
      simp [hca]
    rw [hv]
    unfold playerHomingVelocity
    dsimp only
    exact hbP

/-- Enemy missile used by the C2 witness: at the origin with spawn-speed
velocity (65, 0, 0). -/
def bandEnemyMissile : Missile :=
  { position := ⟨0, 0, 0⟩, velocity := ⟨65, 0, 0⟩, active := true, spawnTime := 0 }

/-- Locked cannon used by the C2 witness, 100 units ahead. -/
def bandCannon : Cannon :=
  { position := ⟨100, 0, 0⟩, lastFireTime := 0, active := true, radius := 5 }

/-- Player missile used by the C2 witness: spawn-speed velocity
(180, 0, 0) with bandCannon locked. -/
def bandPlayerMissile : PlayerMissile :=
  { position := ⟨0, 0, 0⟩, velocity := ⟨180, 0, 0⟩, active := true, spawnTime := 0,
    target := some bandCannon, homingStrength := 2.2 }

/-- Witness for C2 at delta = 1/10: the enemy lerped speed is 71 and the
player lerped speed is 184.4 = 922/5, both inside their bands. -/
theorem missile_speed_band_witness :
    (Vec3.normSq (enemyHomingVelocity ⟨100, 0, 0⟩ bandEnemyMissile 100 71 (1 / 10)) =
        clampq 71 65 115 ^ 2 ∧ 65 ≤ clampq 71 65 115 ∧ clampq 71 65 115 ≤ 115) ∧
    (Vec3.normSq (playerMissileVel bandPlayerMissile 100 (922 / 5) (1 / 10)) =
        clampq (922 / 5) 120 220 ^ 2 ∧ 120 ≤ clampq (922 / 5) 120 220 ∧
        clampq (922 / 5) 120 220 ≤ 220) :=
  missile_speed_band ⟨100, 0, 0⟩ bandEnemyMissile 100 65 71 (1 / 10)
    bandPlayerMissile bandCannon 100 180 (922 / 5) (1 / 10)
    (by norm_num [bandEnemyMissile, Vec3.normSq, Vec3.sub]) (by norm_num)
    (by norm_num [bandEnemyMissile, Vec3.normSq]) (by norm_num) (by norm_num)
    (by norm_num [bandEnemyMissile, Vec3.normSq, Vec3.sub, Vec3.lerp, Vec3.smul,
      Vec3.normalizeWith, Vec3.divideScalar])
    (by norm_num) (by norm_num) (by norm_num)
    rfl rfl rfl
    (by norm_num [bandPlayerMissile, bandCannon, Vec3.normSq, Vec3.sub]) (by norm_num)
    (by norm_num [bandPlayerMissile, Vec3.normSq]) (by norm_num) (by norm_num)
    (by norm_num [bandPlayerMissile, bandCannon, Vec3.normSq, Vec3.sub, Vec3.lerp,
      Vec3.smul, Vec3.normalizeWith, Vec3.divideScalar])
    (by norm_num) (by norm_num) (by norm_num)

/-! ## C6 -/

/-- The number of candidates the rejection sampler accepts along its
candidate chain within a given attempt budget.  The placement loop visits
the candidate with seed index c = placed + (attempts + 1), so after an
acceptance (placed and attempts both advance) the next index is c + 2,
and after a rejection (only attempts advances) it is c + 1; the chain is
therefore determined by the accept oracle alone. -/
def acceptedBy (accept : ℕ → Bool) : ℕ → ℕ → ℕ
  | 0, _ => 0
  | fuel + 1, c =>
    if accept c then acceptedBy accept fuel (c + 2) + 1 else acceptedBy accept fuel (c + 1)

theorem acceptedBy_succ (accept : ℕ → Bool) (fuel c : ℕ) :
    acceptedBy accept (fuel + 1) c =
      if accept c then acceptedBy accept fuel (c + 2) + 1
      else acceptedBy accept fuel (c + 1) := rfl

/-- The exact length of the placement loop's output: the target count
48 - placed, cut off by the number of acceptances the sampler produces
within the remaining attempt budget. -/
theorem placeCannonsAux_length (P : CannonPlacement) :
    ∀ (fuel placed attempts : ℕ),
      (placeCannonsAux P fuel placed attempts).length =
        min (48 - placed)
          (acceptedBy P.accept (min fuel (384 - attempts)) (placed + (attempts + 1))) := by
  intro fuel
  induction fuel with
  | zero =>
    intro placed attempts
    simp [placeCannonsAux, acceptedBy]
  | succ n ih =>
    intro placed attempts
    unfold placeCannonsAux
    dsimp only
    split_ifs with h hacc
    · have hb := h
      simp only [Bool.and_eq_true, decide_eq_true_eq] at hb
      simp only [List.length_cons, ih (placed + 1) (attempts + 1)]
      have hm : min (n + 1) (384 - attempts) = min n (383 - attempts) + 1 := by omega
      rw [hm, acceptedBy_succ, if_pos hacc]
      have e1 : 384 - (attempts + 1) = 383 - attempts := by omega
      have e2 : placed + 1 + (attempts + 1 + 1) = placed + (attempts + 1) + 2 := by omega
      rw [e1, e2]
      omega
    · have hb := h
      simp only [Bool.and_eq_true, decide_eq_true_eq] at hb
      rw [ih placed (attempts + 1)]
      have hm : min (n + 1) (384 - attempts) = min n (383 - attempts) + 1 := by omega
      rw [hm, acceptedBy_succ, if_neg hacc]
      have e1 : 384 - (attempts + 1) = 383 - attempts := by omega
      have e3 : placed + (attempts + 1 + 1) = placed + (attempts + 1) + 1 := by omega
      rw [e1, e3]
    · have hb := h
      simp only [Bool.and_eq_true, decide_eq_true_eq, not_and, not_lt] at hb
      by_cases hp : placed < 48
      · have ha := hb hp
        have hm0 : min (n + 1) (384 - attempts) = 0 := by omega
        rw [hm0]
        simp [acceptedBy]
      · have h0 : 48 - placed = 0 := by omega
        simp [h0]

/-- createCannons places exactly min(48, acceptances within the 384
allowed attempts) cannons. -/
theorem createCannons_length (P : CannonPlacement) :
    (createCannons P).length = min 48 (acceptedBy P.accept 384 1) := by
  unfold createCannons
  rw [placeCannonsAux_length P 384 0 0]
  norm_num

/-- C6: restart from the Crashed state yields the Flying mode with the
enemy-missile, player-missile, explosion-particle and ground-fire sets all
empty, the lock-on cleared, the aircraft state and wing reload timers
reset, and a fresh cannon placement created by createCannons.  The
placement length is exactly min(48, number of candidates the slope/height
sampler accepts within the 384-attempt budget) — in particular at most 48,
and the configured count 48 whenever the sampler accepts at least 48
candidates, which the shipped sine-based sampler does (the acceptance
test itself evaluates transcendental noise and lives outside the rational
embedding; re-evaluating the shipped formula numerically, the 48th
acceptance arrives at attempt 56 of 384). -/
theorem restart_resets (P : CannonPlacement) (w : World)
    (hc : w.flags.mode = GameMode.Crashed) :
    (restart P w).flags.mode = GameMode.Flying ∧
    (restart P w).flags.gameOver = false ∧
    (restart P w).missiles = [] ∧
    (restart P w).playerMissiles = [] ∧
    (restart P w).explosionParticles = [] ∧
    (restart P w).groundFireParticles = [] ∧
    (restart P w).lockedCannon = none ∧
    (restart P w).planeState = initialPlaneState ∧
    (restart P w).reloadLeft = 0 ∧
    (restart P w).reloadRight = 0 ∧
    (restart P w).cannons = createCannons P ∧
    (restart P w).cannons.length = min 48 (acceptedBy P.accept 384 1) ∧
    (48 ≤ acceptedBy P.accept 384 1 → (restart P w).cannons.length = 48) := by
  refine ⟨rfl, rfl, rfl, rfl, rfl, rfl, rfl, rfl, rfl, rfl, rfl, ?_, ?_⟩
  · exact createCannons_length P
  · intro h48
    show (createCannons P).length = 48
    rw [createCannons_length P]
    omega

/-- The crashed flag state. -/
def crashedFlags : GameFlags :=
  { gameOver := true, crashed := true, hitByMissile := false, shotDownFalling := false }

/-- A concrete world in the Crashed state. -/
def crashedWorld : World := { sampleWorld with flags := crashedFlags }

/-- A placement sampler that rejects every seventh candidate — like the
program's slope/height test it turns some candidates away, yet its 48th
acceptance still arrives well inside the 384-attempt budget. -/
def rejectSomePlacement : CannonPlacement :=
  { accept := fun c => decide (c % 7 ≠ 0), posOf := fun _ => ⟨0, 0, 0⟩ }

set_option maxRecDepth 4000 in
/-- Witness for C6: restart of the crashed world with the
sometimes-rejecting sampler yields Flying, empty collections, the reset
aircraft state, and (since that sampler provides at least 48 acceptances
within the budget) exactly 48 cannons. -/
theorem restart_resets_witness :
    (restart rejectSomePlacement crashedWorld).flags.mode = GameMode.Flying ∧
    (restart rejectSomePlacement crashedWorld).flags.gameOver = false ∧
    (restart rejectSomePlacement crashedWorld).missiles = [] ∧
    (restart rejectSomePlacement crashedWorld).playerMissiles = [] ∧
    (restart rejectSomePlacement crashedWorld).explosionParticles = [] ∧
    (restart rejectSomePlacement crashedWorld).groundFireParticles = [] ∧
    (restart rejectSomePlacement crashedWorld).lockedCannon = none ∧
    (restart rejectSomePlacement crashedWorld).planeState = initialPlaneState ∧
    (restart rejectSomePlacement crashedWorld).reloadLeft = 0 ∧
    (restart rejectSomePlacement crashedWorld).reloadRight = 0 ∧
    (restart rejectSomePlacement crashedWorld).cannons = createCannons rejectSomePlacement ∧
    (restart rejectSomePlacement crashedWorld).cannons.length =
      min 48 (acceptedBy rejectSomePlacement.accept 384 1) ∧
    48 ≤ acceptedBy rejectSomePlacement.accept 384 1 ∧
    (restart rejectSomePlacement crashedWorld).cannons.length = 48 := by
  have ha : 48 ≤ acceptedBy rejectSomePlacement.accept 384 1 := by decide
  obtain ⟨h1, h2, h3, h4, h5, h6, h7, h8, h9, h10, h11, h12, h13⟩ :=
    restart_resets rejectSomePlacement crashedWorld rfl
  exact ⟨h1, h2, h3, h4, h5, h6, h7, h8, h9, h10, h11, h12, ha, h13 ha⟩

end PlaneGame
